import Mathlib

/-!
Verification development for the configuration codec and manager state
machines of the esp_boiler_plate_project repository.

The definitions below are shallow embeddings of the C sources:
  * `src/main/include/configuration.h` (data model),
  * `src/main/src/boiler_plate/serialisation.c` (encoder),
  * `src/main/src/boiler_plate/deserialisation.c` (decoder),
  * `src/main/src/boiler_plate/nvs_manager.c` (Config Manager),
  * `src/main/src/boiler_plate/wifi_manager.c` (Connectivity Manager),
  * `src/main/src/boiler_plate/boiler_plate_main.c` (Boot Sequencer).

Byte buffers are `List Nat` whose entries are byte values; multi-byte
fields are little-endian, matching the ESP32 target.  Heap strings that
may be NULL are `Option (List Nat)`; `none` models a NULL pointer.
-/

deriving instance DecidableEq for Except

namespace BoilerPlate

/-- `CONFIGURATION_VERSION` from `configuration.h`. -/
def CONFIGURATION_VERSION : Nat := 0

/-- `wifi_settings_t` from `configuration.h`: `uint8_t ssid_len`,
`uint8_t password_len`, `char* ssid`, `char* password` (NULL ↦ `none`). -/
structure wifi_settings where
  ssid_len : Nat
  password_len : Nat
  ssid : Option (List Nat)
  password : Option (List Nat)
  deriving Repr, DecidableEq

/-- `connectivity_configuration_t` from `configuration.h`.  The C field
`wifi_settings_t* wifi_settings` together with `wifi_settings_count` is
modelled as a list; a NULL array is the empty list. -/
structure connectivity_configuration where
  wifi_settings_count : Nat
  ota_url_len : Nat
  version_url_len : Nat
  ota_url : Option (List Nat)
  version_url : Option (List Nat)
  wifi_settings : List wifi_settings
  deriving Repr, DecidableEq

/-- `system_settings_configuration_t` from `configuration.h`; the single
field `esp_log_level_t log_level` is a 4-byte enum on the target. -/
structure system_settings_configuration where
  log_level : Nat
  deriving Repr, DecidableEq

/-- `user_configuration_t` from `configuration.h`. -/
structure user_configuration where
  unit_name : Option (List Nat)
  unit_name_len : Nat
  deriving Repr, DecidableEq

/-- `unit_configuration_t` from `configuration.h`. -/
structure unit_configuration where
  configuration_version : Nat
  con_config : connectivity_configuration
  sys_config : system_settings_configuration
  user_config : user_configuration
  deriving Repr, DecidableEq

/-- Little-endian byte image of a `w`-byte unsigned integer field, as
produced by `memcpy` from the field on the little-endian target. -/
def le_bytes : Nat → Nat → List Nat
  | 0, _ => []
  | w + 1, v => v % 256 :: le_bytes w (v / 256)

/-- Value of a little-endian byte image (inverse of `le_bytes`). -/
def le_value : List Nat → Nat
  | [] => 0
  | b :: bs => b + 256 * le_value bs

/-- Bytes emitted for an optional length-prefixed string body:
`serialisation.c` guards every string copy with
`if (len > 0 && ptr != NULL) serialize_block(ptr, len)`; the `memcpy`
reads exactly `len` bytes from the string. -/
def optBytes (len : Nat) (p : Option (List Nat)) : List Nat :=
  match p with
  | some bytes => if 0 < len then bytes.take len else []
  | none => []

/-- `serialize_wifi_settings` (serialisation.c:36-50): both length bytes
first, then the conditional ssid body, then the conditional password body. -/
def serialize_wifi_settings (s : wifi_settings) : List Nat :=
  le_bytes 1 s.ssid_len ++ le_bytes 1 s.password_len
    ++ optBytes s.ssid_len s.ssid ++ optBytes s.password_len s.password

/-- `serialize_connectivity_configuration` (serialisation.c:52-71): the
three header bytes, the two URL bodies, then `wifi_settings_count`
credential records. -/
def serialize_connectivity_configuration (c : connectivity_configuration) : List Nat :=
  le_bytes 1 c.wifi_settings_count ++ le_bytes 1 c.ota_url_len ++ le_bytes 1 c.version_url_len
    ++ optBytes c.ota_url_len c.ota_url ++ optBytes c.version_url_len c.version_url
    ++ ((c.wifi_settings.take c.wifi_settings_count).map serialize_wifi_settings).flatten

/-- `serialize_system_settings_configuration` (serialisation.c:73-79):
`serialize_block(&log_level, sizeof(esp_log_level_t))` copies the 4-byte
enum little-endian. -/
def serialize_system_settings_configuration (c : system_settings_configuration) : List Nat :=
  le_bytes 4 c.log_level

/-- `serialize_user_configuration` (serialisation.c:81-91). -/
def serialize_user_configuration (c : user_configuration) : List Nat :=
  le_bytes 1 c.unit_name_len ++ optBytes c.unit_name_len c.unit_name

/-- `serialize_unit_configuration` (serialisation.c:93-103). -/
def serialize_unit_configuration (c : unit_configuration) : List Nat :=
  le_bytes 1 c.configuration_version
    ++ serialize_connectivity_configuration c.con_config
    ++ serialize_system_settings_configuration c.sys_config
    ++ serialize_user_configuration c.user_config

/-- `calculate_unit_configuration_size` (serialisation.c:105-139), term by
term in source order; `sizeof(system_settings_configuration_t)` is 4. -/
def calculate_unit_configuration_size (c : unit_configuration) : Nat :=
  1 + (1 + (1 + c.con_config.ota_url_len) + (1 + c.con_config.version_url_len)
        + ((c.con_config.wifi_settings.take c.con_config.wifi_settings_count).map
            (fun s => (1 + s.ssid_len) + (1 + s.password_len))).sum)
    + 4 + (1 + c.user_config.unit_name_len)

/-- Outcomes of decoding.  `versionMismatch` models
`deserialize_unit_configuration` returning NULL on a version-byte
mismatch.  `outOfBounds` marks that the unchecked
`memcpy(data, buffer, size)` in `deserialize_block`
(deserialisation.c:32-35) would read past the end of the supplied
buffer: the C code performs no size validation whatsoever, so this
outcome is undefined behaviour in the source, not an error it reports. -/
inductive DecodeError where
  | outOfBounds
  | versionMismatch
  deriving Repr, DecidableEq

/-- `deserialize_block` (deserialisation.c:32-35): consume `size` bytes.
The `.error .outOfBounds` branch is the case where the unchecked
`memcpy` would read past the end of the buffer. -/
def deserialize_block (buffer : List Nat) (size : Nat) :
    Except DecodeError (List Nat × List Nat) :=
  if size ≤ buffer.length then .ok (buffer.take size, buffer.drop size)
  else .error .outOfBounds

/-- Read a 1-byte field (`deserialize_block` with `sizeof(uint8_t)`). -/
def deserialize_u8 (buffer : List Nat) : Except DecodeError (Nat × List Nat) :=
  match deserialize_block buffer 1 with
  | .error e => .error e
  | .ok (bs, rest) => .ok (le_value bs, rest)

/-- Read a 4-byte little-endian field (`deserialize_block` with
`sizeof(esp_log_level_t)`). -/
def deserialize_u32 (buffer : List Nat) : Except DecodeError (Nat × List Nat) :=
  match deserialize_block buffer 4 with
  | .error e => .error e
  | .ok (bs, rest) => .ok (le_value bs, rest)

/-- Conditional string body read: `if (len > 0) { p = alloc(len); block }
else p = NULL`, as in every string field of deserialisation.c. -/
def deserialize_opt_bytes (len : Nat) (buffer : List Nat) :
    Except DecodeError (Option (List Nat) × List Nat) :=
  if 0 < len then
    match deserialize_block buffer len with
    | .error e => .error e
    | .ok (bs, rest) => .ok (some bs, rest)
  else .ok (none, buffer)

/-- `deserialize_wifi_settings` (deserialisation.c:37-58). -/
def deserialize_wifi_settings (buffer : List Nat) :
    Except DecodeError (wifi_settings × List Nat) :=
  match deserialize_u8 buffer with
  | .error e => .error e
  | .ok (ssid_len, b1) =>
    match deserialize_u8 b1 with
    | .error e => .error e
    | .ok (password_len, b2) =>
      match deserialize_opt_bytes ssid_len b2 with
      | .error e => .error e
      | .ok (ssid, b3) =>
        match deserialize_opt_bytes password_len b3 with
        | .error e => .error e
        | .ok (password, b4) =>
          .ok ({ ssid_len := ssid_len, password_len := password_len,
                 ssid := ssid, password := password }, b4)

/-- The credential-record loop of
`deserialize_connectivity_configuration` (deserialisation.c:81-88); the
C guard `if (count > 0)` coincides with the `0` case. -/
def deserialize_wifi_settings_list :
    Nat → List Nat → Except DecodeError (List wifi_settings × List Nat)
  | 0, buffer => .ok ([], buffer)
  | n + 1, buffer =>
    match deserialize_wifi_settings buffer with
    | .error e => .error e
    | .ok (s, b1) =>
      match deserialize_wifi_settings_list n b1 with
      | .error e => .error e
      | .ok (rest, b2) => .ok (s :: rest, b2)

/-- `deserialize_connectivity_configuration` (deserialisation.c:60-91). -/
def deserialize_connectivity_configuration (buffer : List Nat) :
    Except DecodeError (connectivity_configuration × List Nat) :=
  match deserialize_u8 buffer with
  | .error e => .error e
  | .ok (count, b1) =>
    match deserialize_u8 b1 with
    | .error e => .error e
    | .ok (ota_url_len, b2) =>
      match deserialize_u8 b2 with
      | .error e => .error e
      | .ok (version_url_len, b3) =>
        match deserialize_opt_bytes ota_url_len b3 with
        | .error e => .error e
        | .ok (ota_url, b4) =>
          match deserialize_opt_bytes version_url_len b4 with
          | .error e => .error e
          | .ok (version_url, b5) =>
            match deserialize_wifi_settings_list count b5 with
            | .error e => .error e
            | .ok (settings, b6) =>
              .ok ({ wifi_settings_count := count, ota_url_len := ota_url_len,
                     version_url_len := version_url_len, ota_url := ota_url,
                     version_url := version_url, wifi_settings := settings }, b6)

/-- `deserialize_system_settings_configuration` (deserialisation.c:93-100). -/
def deserialize_system_settings_configuration (buffer : List Nat) :
    Except DecodeError (system_settings_configuration × List Nat) :=
  match deserialize_u32 buffer with
  | .error e => .error e
  | .ok (log_level, rest) => .ok ({ log_level := log_level }, rest)

/-- `deserialize_user_configuration` (deserialisation.c:102-115). -/
def deserialize_user_configuration (buffer : List Nat) :
    Except DecodeError (user_configuration × List Nat) :=
  match deserialize_u8 buffer with
  | .error e => .error e
  | .ok (unit_name_len, b1) =>
    match deserialize_opt_bytes unit_name_len b1 with
    | .error e => .error e
    | .ok (unit_name, b2) =>
      .ok ({ unit_name := unit_name, unit_name_len := unit_name_len }, b2)

/-- `deserialize_unit_configuration` (deserialisation.c:117-132): reads the
version byte first and returns NULL (here `.error .versionMismatch`)
before decoding any other field when it differs from
`CONFIGURATION_VERSION`. -/
def deserialize_unit_configuration (buffer : List Nat) :
    Except DecodeError (unit_configuration × List Nat) :=
  match deserialize_u8 buffer with
  | .error e => .error e
  | .ok (version, b1) =>
    if version ≠ CONFIGURATION_VERSION then .error .versionMismatch
    else
      match deserialize_connectivity_configuration b1 with
      | .error e => .error e
      | .ok (con, b2) =>
        match deserialize_system_settings_configuration b2 with
        | .error e => .error e
        | .ok (sys, b3) =>
          match deserialize_user_configuration b3 with
          | .error e => .error e
          | .ok (user, b4) =>
            .ok ({ configuration_version := version, con_config := con,
                   sys_config := sys, user_config := user }, b4)

/-- A stored length byte and its heap string agree: the C invariant that
a string pointer is non-NULL exactly when its length field is positive,
and then points at exactly that many bytes. -/
def strOk (len : Nat) (p : Option (List Nat)) : Prop :=
  match p with
  | some bytes => 0 < len ∧ bytes.length = len
  | none => len = 0

instance : (len : Nat) → (p : Option (List Nat)) → Decidable (strOk len p)
  | len, some bytes => inferInstanceAs (Decidable (0 < len ∧ bytes.length = len))
  | len, none => inferInstanceAs (Decidable (len = 0))

/-- A credential within the spec bounds (ssid ≤ 32 bytes, password ≤ 64). -/
def wifi_settings.valid (s : wifi_settings) : Prop :=
  s.ssid_len ≤ 32 ∧ s.password_len ≤ 64
    ∧ strOk s.ssid_len s.ssid ∧ strOk s.password_len s.password

instance (s : wifi_settings) : Decidable s.valid :=
  inferInstanceAs (Decidable (_ ∧ _ ∧ _ ∧ _))

/-- A connectivity configuration whose length fields describe its data. -/
def connectivity_configuration.valid (c : connectivity_configuration) : Prop :=
  c.wifi_settings_count = c.wifi_settings.length ∧ c.wifi_settings_count ≤ 255
    ∧ c.ota_url_len ≤ 255 ∧ c.version_url_len ≤ 255
    ∧ strOk c.ota_url_len c.ota_url ∧ strOk c.version_url_len c.version_url
    ∧ ∀ s ∈ c.wifi_settings, s.valid

instance (c : connectivity_configuration) : Decidable c.valid :=
  inferInstanceAs (Decidable (_ ∧ _ ∧ _ ∧ _ ∧ _ ∧ _ ∧ _))

/-- The log level fits its 4-byte storage. -/
def system_settings_configuration.valid (c : system_settings_configuration) : Prop :=
  c.log_level < 4294967296

instance (c : system_settings_configuration) : Decidable c.valid :=
  inferInstanceAs (Decidable (_ < _))

/-- A user configuration whose length field describes its data. -/
def user_configuration.valid (c : user_configuration) : Prop :=
  c.unit_name_len ≤ 255 ∧ strOk c.unit_name_len c.unit_name

instance (c : user_configuration) : Decidable c.valid :=
  inferInstanceAs (Decidable (_ ∧ _))

/-- A valid in-memory `unit_configuration`: current codec version and all
length fields consistent with their data and within the spec bounds. -/
def unit_configuration.valid (c : unit_configuration) : Prop :=
  c.configuration_version = CONFIGURATION_VERSION
    ∧ c.con_config.valid ∧ c.sys_config.valid ∧ c.user_config.valid

instance (c : unit_configuration) : Decidable c.valid :=
  inferInstanceAs (Decidable (_ ∧ _ ∧ _ ∧ _))

/-! ### Byte layout -/

/-- Modelled from the spec: the binary layout of §6 taken literally, for
comparison with the encoder (claim C8).  Each `_len` byte is immediately
followed by its string body, each credential record is
`ssid_len, ssid bytes, password_len, password bytes`, and `log_level` is
a single byte. -/
def spec_layout_serialize (c : unit_configuration) : List Nat :=
  [c.configuration_version % 256]
    ++ [c.con_config.wifi_settings_count % 256]
    ++ [c.con_config.ota_url_len % 256] ++ c.con_config.ota_url.getD []
    ++ [c.con_config.version_url_len % 256] ++ c.con_config.version_url.getD []
    ++ (c.con_config.wifi_settings.map (fun s =>
          [s.ssid_len % 256] ++ s.ssid.getD [] ++ [s.password_len % 256]
            ++ s.password.getD [])).flatten
    ++ [c.sys_config.log_level % 256]
    ++ [c.user_config.unit_name_len % 256] ++ c.user_config.unit_name.getD []

/-- The byte layout the encoder actually emits: within every group the
length bytes all precede the string bodies, and `log_level` occupies four
little-endian bytes. -/
def actual_layout (c : unit_configuration) : List Nat :=
  [c.configuration_version % 256,
   c.con_config.wifi_settings_count % 256,
   c.con_config.ota_url_len % 256,
   c.con_config.version_url_len % 256]
    ++ c.con_config.ota_url.getD []
    ++ c.con_config.version_url.getD []
    ++ (c.con_config.wifi_settings.map (fun s =>
          [s.ssid_len % 256, s.password_len % 256] ++ s.ssid.getD []
            ++ s.password.getD [])).flatten
    ++ le_bytes 4 c.sys_config.log_level
    ++ [c.user_config.unit_name_len % 256]
    ++ c.user_config.unit_name.getD []

/-! ### Config Manager (nvs_manager.c) -/

/-- The `esp_err_t` values the modelled code paths produce. -/
inductive esp_err where
  | ok
  | fail
  | err_not_found
  | err_invalid_state
  | err_invalid_arg
  deriving Repr, DecidableEq

/-- `nvs_manager_state_t` (nvs_manager.h): `NVS_STATE_NONE = BIT0`,
`NVS_READY = BIT1`, `NVS_BUSY = BIT2`. -/
inductive nvs_state where
  | state_none
  | ready
  | busy
  deriving Repr, DecidableEq

/-- The event-group bit of an `nvs_manager_state_t` value. -/
def nvs_state.bits : nvs_state → Nat
  | .state_none => 1
  | .ready => 2
  | .busy => 4

/-- `nvs_manager_state_request_t` (nvs_manager.h): `BIT0 .. BIT3`. -/
inductive nvs_request where
  | none_request
  | ready_request
  | read_request
  | write_request
  deriving Repr, DecidableEq

/-- The event-group bit of an `nvs_manager_state_request_t` value. -/
def nvs_request.bits : nvs_request → Nat
  | .none_request => 1
  | .ready_request => 2
  | .read_request => 4
  | .write_request => 8

/-- The menuconfig (Kconfig) string/choice values consumed by
`store_unit_default_config_to_nvs`: `CONFIG_SSID`, `CONFIG_PASSWORD`,
`CONFIG_OTA_URL`, `CONFIG_FIRMWARE_VERSION_ENDPOINT`,
`CONFIG_LOG_DEFAULT_LEVEL`, `CONFIG_ESP_NAME`.  They are build
parameters, not repository sources, so they are explicit inputs here. -/
structure kconfig where
  ssid : List Nat
  password : List Nat
  ota_url : List Nat
  version_url : List Nat
  log_level : Nat
  esp_name : List Nat
  deriving Repr, DecidableEq

/-- Sensible Kconfig values: non-empty strings within the field bounds. -/
def kconfig.valid (k : kconfig) : Prop :=
  0 < k.ssid.length ∧ k.ssid.length ≤ 32
    ∧ 0 < k.password.length ∧ k.password.length ≤ 64
    ∧ 0 < k.ota_url.length ∧ k.ota_url.length ≤ 255
    ∧ 0 < k.version_url.length ∧ k.version_url.length ≤ 255
    ∧ k.log_level < 4294967296
    ∧ 0 < k.esp_name.length ∧ k.esp_name.length ≤ 255

instance (k : kconfig) : Decidable k.valid :=
  inferInstanceAs (Decidable (_ ∧ _ ∧ _ ∧ _ ∧ _ ∧ _ ∧ _ ∧ _ ∧ _ ∧ _ ∧ _))

/-- The field assignments of `store_unit_default_config_to_nvs`
(nvs_manager.c:248-303) applied to the shared config: one credential from
`CONFIG_SSID`/`CONFIG_PASSWORD`, the two URLs, the default log level and
the unit name.  `configuration_version` is never assigned there and keeps
its current value (zero after `unit_config_init`, which `calloc`s the
shared struct). -/
def apply_default_config (k : kconfig) (cfg : unit_configuration) : unit_configuration :=
  { configuration_version := cfg.configuration_version,
    con_config :=
      { wifi_settings_count := 1,
        ota_url_len := k.ota_url.length,
        version_url_len := k.version_url.length,
        ota_url := some k.ota_url,
        version_url := some k.version_url,
        wifi_settings := [{ ssid_len := k.ssid.length, password_len := k.password.length,
                            ssid := some k.ssid, password := some k.password }] },
    sys_config := { log_level := k.log_level },
    user_config := { unit_name := some k.esp_name, unit_name_len := k.esp_name.length } }

/-- Observable side effects of the Config Manager: NVS/storage calls and
state-signal publications (`xEventGroupSetBits` on the state group). -/
inductive nvs_effect where
  | flash_init
  | flash_deinit
  | nvs_open
  | nvs_get_blob
  | nvs_set_blob (blob : List Nat)
  | nvs_commit
  | nvs_close
  | log_level_set
  | publish (bits : Nat)
  deriving Repr, DecidableEq

/-- The persistent store (single key `unit_config`) plus the Shared
Config Store contents. -/
structure nvs_env where
  stored_blob : Option (List Nat)
  shared_config : unit_configuration
  deriving Repr, DecidableEq

/-- `store_unit_default_config_to_nvs` (nvs_manager.c:248-343): mutates
the shared config to the compiled-in defaults, serializes it, and stores
the blob only when the serialized size matches the calculated size. -/
def store_unit_default_config_to_nvs (k : kconfig) (env : nvs_env) :
    nvs_env × List nvs_effect :=
  let cfg := apply_default_config k env.shared_config
  let buffer_size := calculate_unit_configuration_size cfg
  let blob := serialize_unit_configuration cfg
  if blob.length = buffer_size then
    ({ stored_blob := some blob, shared_config := cfg },
      [.nvs_open, .nvs_set_blob blob, .nvs_commit, .nvs_close])
  else
    ({ stored_blob := env.stored_blob, shared_config := cfg },
      [.nvs_open, .nvs_close])

/-- `read_nvs_into_config` (nvs_manager.c:373-405).  The return value of
`deserialize_unit_configuration` is ignored: on a version mismatch the
shared config keeps its fields except the already-written version byte;
deeper decode failures are out-of-bounds reads (undefined behaviour in
the source), modelled as leaving the shared config unchanged. -/
def read_nvs_into_config (env : nvs_env) : nvs_env × esp_err × List nvs_effect :=
  match env.stored_blob with
  | none => (env, .err_not_found, [.nvs_open, .nvs_get_blob, .nvs_close])
  | some blob =>
    let shared2 :=
      match deserialize_unit_configuration blob with
      | .ok (cfg, _) => cfg
      | .error .versionMismatch =>
        { env.shared_config with configuration_version := le_value (blob.take 1) }
      | .error .outOfBounds => env.shared_config
    ({ env with shared_config := shared2 }, .ok,
      [.nvs_open, .nvs_get_blob, .nvs_get_blob, .log_level_set, .nvs_close])

/-- `update_nvs_from_config` (nvs_manager.c:346-370): serializes the
shared config into a zero-initialized buffer of the calculated size and
stores exactly that many bytes. -/
def update_nvs_from_config (env : nvs_env) : nvs_env × esp_err × List nvs_effect :=
  let blob_size := calculate_unit_configuration_size env.shared_config
  let written := serialize_unit_configuration env.shared_config
  let blob := (written ++ List.replicate (blob_size - written.length) 0).take blob_size
  ({ env with stored_blob := some blob }, .ok,
    [.nvs_open, .nvs_set_blob blob, .nvs_commit, .nvs_close])

/-- The Config Manager worker state (`struct nvs_manager`). -/
structure nvs_manager_model where
  current_state : nvs_state
  nvs_flash_inited : Bool
  deriving Repr, DecidableEq

/-- Result of one `transition_to_state` call of the Config Manager. -/
structure nvs_step_result where
  manager : nvs_manager_model
  env : nvs_env
  effects : List nvs_effect
  ret : esp_err
  deriving Repr, DecidableEq

/-- `transition_to_state` (nvs_manager.c:174-229), with the underlying
flash/NVS primitives succeeding. -/
def nvs_transition_to_state (m : nvs_manager_model) (env : nvs_env)
    (k : kconfig) (request : nvs_request) : nvs_step_result :=
  if m.current_state = .busy then
    ⟨m, env, [], .fail⟩
  else if m.current_state = .state_none
      ∧ (request = .read_request ∨ request = .write_request) then
    ⟨m, env, [], .fail⟩
  else if m.current_state = .state_none ∧ request = .ready_request then
    -- initialise_nvs_flash, is_config_stored_in_nvs probe
    let probe : List nvs_effect := [.flash_init, .nvs_open, .nvs_get_blob, .nvs_close]
    let (env1, e1) :=
      if env.stored_blob.isSome then (env, ([] : List nvs_effect))
      else store_unit_default_config_to_nvs k env
    let (env2, _, e2) := read_nvs_into_config env1
    ⟨{ current_state := .ready, nvs_flash_inited := true }, env2,
      probe ++ e1 ++ e2 ++ [.publish nvs_state.ready.bits], .ok⟩
  else if m.current_state = .ready ∧ request = .read_request then
    let (env1, r, e) := read_nvs_into_config env
    ⟨{ m with current_state := .ready }, env1,
      [.publish nvs_state.busy.bits] ++ e ++ [.publish nvs_state.ready.bits], r⟩
  else if m.current_state = .ready ∧ request = .write_request then
    let (env1, r, e) := update_nvs_from_config env
    ⟨{ m with current_state := .ready }, env1,
      [.publish nvs_state.busy.bits] ++ e ++ [.publish nvs_state.ready.bits], r⟩
  else if m.current_state = .ready ∧ request = .none_request then
    ⟨{ current_state := .state_none, nvs_flash_inited := false }, env,
      [.publish nvs_state.busy.bits, .flash_deinit,
        .publish nvs_state.state_none.bits], .ok⟩
  else
    ⟨m, env, [], .fail⟩

/-! ### Connectivity Manager (wifi_manager.c) -/

/-- `wifi_manager_state_t` (boiler_plate/wifi_manager.h). -/
inductive wifi_state where
  | state_none
  | sta
  | ap
  | ap_sta
  deriving Repr, DecidableEq

/-- `WIFI_MANAGER_STATE_*_BIT` published for a state
(boiler_plate/wifi_manager.h:43-47; `STA_IP_RECEIVED_BIT` is `BIT2` and
has no state of its own). -/
def wifi_state.state_bit : wifi_state → Nat
  | .state_none => 1
  | .sta => 2
  | .ap => 8
  | .ap_sta => 16

/-- `WIFI_MANAGER_REQUEST_*_BIT` (boiler_plate/wifi_manager.h:38-41). -/
def wifi_state.request_bit : wifi_state → Nat
  | .state_none => 1
  | .sta => 2
  | .ap => 4
  | .ap_sta => 8

/-- `WIFI_MANAGER_STATE_STA_IP_RECEIVED_BIT` = `BIT2`. -/
def WIFI_MANAGER_STATE_STA_IP_RECEIVED_BIT : Nat := 4

/-- `wifi_mode_t` values passed to `esp_wifi_set_mode`. -/
inductive wifi_mode where
  | null_mode
  | sta_mode
  | ap_mode
  | apsta_mode
  deriving Repr, DecidableEq

/-- Observable side effects of `transition_to_state`
(wifi_manager.c:411-504): radio / netif operations and state-signal
publications. -/
inductive wifi_effect where
  | netif_destroy_sta
  | netif_destroy_ap
  | wifi_stop
  | wifi_init
  | netif_create_sta
  | netif_create_ap
  | set_mode (m : wifi_mode)
  | set_config_ap
  | wifi_start
  | wifi_deinit
  | publish (bits : Nat)
  deriving Repr, DecidableEq

/-- The fields of `struct wifi_manager` that `transition_to_state`
reads or writes. -/
structure wifi_manager_model where
  current_state : wifi_state
  sta_config_set : Bool
  ap_config_set : Bool
  sta_netif : Bool
  ap_netif : Bool
  deriving Repr, DecidableEq

/-- `transition_to_state` (wifi_manager.c:411-504) with the underlying
`esp_wifi_*` calls succeeding. -/
def wifi_transition_to_state (m : wifi_manager_model) (new_state : wifi_state) :
    wifi_manager_model × List wifi_effect × esp_err :=
  if m.current_state = new_state then (m, [], .ok)
  else if (new_state = .sta ∨ new_state = .ap_sta) ∧ ¬m.sta_config_set then
    (m, [], .err_invalid_state)
  else if (new_state = .ap ∨ new_state = .ap_sta) ∧ ¬m.ap_config_set then
    (m, [], .err_invalid_state)
  else
    let destroy_effects : List wifi_effect :=
      (if m.sta_netif then [.netif_destroy_sta] else [])
        ++ (if m.ap_netif then [.netif_destroy_ap] else [])
    let stop_effects : List wifi_effect :=
      if m.current_state ≠ .state_none then [.wifi_stop] else []
    let target_mode : wifi_mode :=
      match new_state with
      | .state_none => .null_mode
      | .sta => .sta_mode
      | .ap => .ap_mode
      | .ap_sta => .apsta_mode
    let create_effects : List wifi_effect :=
      match new_state with
      | .state_none => []
      | .sta => [.netif_create_sta]
      | .ap => [.netif_create_ap]
      | .ap_sta => [.netif_create_sta, .netif_create_ap]
    let start_effects : List wifi_effect :=
      if new_state ≠ .state_none then
        (if m.current_state = .state_none then [.wifi_init] else [])
          ++ [.set_mode target_mode]
          ++ (if target_mode = .ap_mode ∨ target_mode = .apsta_mode then
                [.set_config_ap] else [])
          ++ [.wifi_start]
      else [.wifi_deinit]
    ({ m with current_state := new_state,
              sta_netif := new_state = .sta ∨ new_state = .ap_sta,
              ap_netif := new_state = .ap ∨ new_state = .ap_sta },
      destroy_effects ++ stop_effects ++ create_effects ++ start_effects
        ++ [.publish new_state.state_bit], .ok)

/-! ### Disconnect retry logic (wifi_manager.c:330-342, 375-380) -/

/-- What one `WIFI_EVENT_STA_DISCONNECTED` handler invocation does:
either arm the single reconnect timer or request the `AP` state. -/
inductive disconnect_action where
  | schedule_reconnect
  | request_ap
  deriving Repr, DecidableEq

/-- `handle_sta_disconnected` (wifi_manager.c:330-342) as a function of
the configured `CONFIG_WIFI_RETRIES` (a Kconfig build parameter) and the
current `retry_count`. -/
def handle_sta_disconnected (retries retry_count : Nat) : disconnect_action × Nat :=
  if retry_count < retries then (.schedule_reconnect, retry_count + 1)
  else (.request_ap, retry_count)

/-- `handle_sta_ip_obtained` (wifi_manager.c:375-380): the counter is
reset to zero and `STA_IP_RECEIVED` is published. -/
def handle_sta_ip_obtained (_retry_count : Nat) : Nat × List wifi_effect :=
  (0, [.publish WIFI_MANAGER_STATE_STA_IP_RECEIVED_BIT])

/-- Actions and final counter after `n` consecutive disconnect events
starting from counter `c` with no intervening successful connection. -/
def consecutive_disconnects (retries : Nat) : Nat → Nat → List disconnect_action × Nat
  | 0, c => ([], c)
  | n + 1, c =>
    let (a, c1) := handle_sta_disconnected retries c
    let (acts, c2) := consecutive_disconnects retries n c1
    (a :: acts, c2)

/-! ### Scan-result selection (wifi_manager.c:214-254, 285-296, 344-373) -/

/-- One `wifi_ap_record_t` as used by `find_strongest_ssid`: the network
name and its RSSI. -/
structure ap_record where
  ssid : List Nat
  rssi : Int
  deriving Repr, DecidableEq

/-- The `strncmp(ap_records[i].ssid, setting->ssid, 33) == 0` test:
equality of the two C strings.  A NULL credential ssid (possible only
for a zero-length stored ssid) would be undefined behaviour in the
source; it is never equal here. -/
def ssid_matches (record : ap_record) (setting : wifi_settings) : Prop :=
  match setting.ssid with
  | some bytes => record.ssid = bytes
  | none => False

instance (record : ap_record) (setting : wifi_settings) :
    Decidable (ssid_matches record setting) :=
  match h : setting.ssid with
  | some bytes => decidable_of_iff (record.ssid = bytes) (by simp [ssid_matches, h])
  | none => isFalse (by simp [ssid_matches, h])

/-- Accumulator of the double loop in `find_strongest_ssid`:
`best_rssi` and the credential currently copied into `sta_config`
(`none` while `found` is still false). -/
structure scan_acc where
  best_rssi : Int
  selection : Option (List Nat × List Nat)
  deriving Repr, DecidableEq

/-- The inner credential loop body of `find_strongest_ssid`
(wifi_manager.c:230-244): each matching credential stronger than
`best_rssi` replaces the selection. -/
def scan_inner (record : ap_record) (acc : scan_acc) (setting : wifi_settings) :
    scan_acc :=
  if ssid_matches record setting ∧ record.rssi > acc.best_rssi then
    { best_rssi := record.rssi,
      selection := some (setting.ssid.getD [], setting.password.getD []) }
  else acc

/-- `find_strongest_ssid` (wifi_manager.c:214-254): iterate the scan
records in order, each against every configured credential, starting
from `best_rssi = -127`; returns the selected credential or
`ESP_ERR_NOT_FOUND` (`none`). -/
def find_strongest_ssid (scan : List ap_record) (creds : List wifi_settings) :
    Option (List Nat × List Nat) :=
  (scan.foldl (fun acc record => creds.foldl (scan_inner record) acc)
    { best_rssi := -127, selection := none }).selection

/-- Outcome of the `WIFI_EVENT_SCAN_DONE` arm of `wifi_event_handler`
(wifi_manager.c:354-355): `ESP_ERROR_CHECK(connect_to_sta(manager))`
aborts the program when `connect_to_sta` fails, which happens with
`ESP_ERR_NOT_FOUND` whenever no scanned network matches a credential. -/
inductive scan_done_outcome where
  | connect_attempt (ssid password : List Nat)
  | abort_program
  deriving Repr, DecidableEq

/-- `ESP_ERROR_CHECK(connect_to_sta(manager))` on `WIFI_EVENT_SCAN_DONE`,
with `esp_wifi_set_config` and `esp_wifi_connect` succeeding. -/
def handle_scan_done (scan : List ap_record) (creds : List wifi_settings) :
    scan_done_outcome :=
  match find_strongest_ssid scan creds with
  | some (ssid, password) => .connect_attempt ssid password
  | none => .abort_program

/-! ### Event-group waits and worker loops -/

/-- Completion predicate of `xEventGroupWaitBits(group, bits, clear,
waitAll, portMAX_DELAY)`: with `waitAll = pdTRUE` the call returns only
once every requested bit is set, with `pdFALSE` once any is. -/
def event_wait_done (published mask : Nat) (waitAll : Bool) : Bool :=
  if waitAll then mask &&& published = mask else mask &&& published ≠ 0

/-- `wifi_manager_wait_until_state` (wifi_manager.c:208-212) blocks with
`xClearOnExit = pdFALSE` and `xWaitForAllBits = pdTRUE`. -/
def wifi_manager_wait_until_state_done (published mask : Nat) : Bool :=
  event_wait_done published mask true

/-- The published-state bits of the Connectivity Manager as five flags
(BIT0 none, BIT1 sta, BIT2 ip received, BIT3 ap, BIT4 ap+sta). -/
structure wifi_signals where
  none_s : Bool
  sta_s : Bool
  ip_s : Bool
  ap_s : Bool
  ap_sta_s : Bool
  deriving Repr, DecidableEq

/-- The event-group word holding a set of published state bits. -/
def wifi_signals.bits (s : wifi_signals) : Nat :=
  (if s.none_s then 1 else 0) + (if s.sta_s then 2 else 0)
    + (if s.ip_s then 4 else 0) + (if s.ap_s then 8 else 0)
    + (if s.ap_sta_s then 16 else 0)

/-- Boot step 4 (boiler_plate_main.c:51):
`wifi_manager_wait_until_state(wifi_manager, WIFI_MANAGER_STATE_STA_IP_RECEIVED)`
waits on the mask `BIT2` only. -/
def boot_step4_wait_done (published : Nat) : Bool :=
  wifi_manager_wait_until_state_done published WIFI_MANAGER_STATE_STA_IP_RECEIVED_BIT

/-- Pending request bits of the Connectivity Manager worker as flags. -/
structure wifi_requests where
  none_r : Bool
  sta_r : Bool
  ap_r : Bool
  ap_sta_r : Bool
  deriving Repr, DecidableEq

/-- The request event-group word. -/
def wifi_requests.bits (r : wifi_requests) : Nat :=
  (if r.none_r then 1 else 0) + (if r.sta_r then 2 else 0)
    + (if r.ap_r then 4 else 0) + (if r.ap_sta_r then 8 else 0)

/-- The request chosen by one iteration of the Connectivity Manager
`fsm_task` loop (wifi_manager.c:256-283) from the returned bits: the
`if/else if` chain fixes the priority `NONE, STA, AP, AP_STA`; when no
recognized bit is set the default `WIFI_MANAGER_STATE_NONE` is used. -/
def wifi_fsm_pick (bits : Nat) : wifi_state :=
  if bits &&& wifi_state.state_none.request_bit ≠ 0 then .state_none
  else if bits &&& wifi_state.sta.request_bit ≠ 0 then .sta
  else if bits &&& wifi_state.ap.request_bit ≠ 0 then .ap
  else if bits &&& wifi_state.ap_sta.request_bit ≠ 0 then .ap_sta
  else .state_none

/-- One wake-up of the Connectivity Manager worker: `xEventGroupWaitBits`
with `xClearOnExit = pdTRUE` hands back every pending request bit and
clears them all; exactly one request is then serviced. -/
def wifi_fsm_iteration (pending : wifi_requests) : wifi_state × wifi_requests :=
  (wifi_fsm_pick pending.bits,
    { none_r := false, sta_r := false, ap_r := false, ap_sta_r := false })

/-- Pending request bits of the Config Manager worker as flags. -/
structure nvs_requests where
  none_r : Bool
  ready_r : Bool
  read_r : Bool
  write_r : Bool
  deriving Repr, DecidableEq

/-- The request event-group word. -/
def nvs_requests.bits (r : nvs_requests) : Nat :=
  (if r.none_r then 1 else 0) + (if r.ready_r then 2 else 0)
    + (if r.read_r then 4 else 0) + (if r.write_r then 8 else 0)

/-- The request chosen by one iteration of the Config Manager `fsm_task`
loop (nvs_manager.c:141-169): priority `NONE, READY, READ, WRITE`; when
no recognized bit is set the loop `continue`s (`none` here). -/
def nvs_fsm_pick (bits : Nat) : Option nvs_request :=
  if bits &&& nvs_request.none_request.bits ≠ 0 then some .none_request
  else if bits &&& nvs_request.ready_request.bits ≠ 0 then some .ready_request
  else if bits &&& nvs_request.read_request.bits ≠ 0 then some .read_request
  else if bits &&& nvs_request.write_request.bits ≠ 0 then some .write_request
  else none

/-- One wake-up of the Config Manager worker: all pending request bits
are returned and cleared together (`xClearOnExit = pdTRUE`), then at most
one request is serviced. -/
def nvs_fsm_iteration (pending : nvs_requests) : Option nvs_request × nvs_requests :=
  (nvs_fsm_pick pending.bits,
    { none_r := false, ready_r := false, read_r := false, write_r := false })

/-! ### Concrete instances used in the statements below -/

/-- A boundary configuration: one credential with a 32-byte ssid and a
64-byte password. -/
def example_config_boundary : unit_configuration :=
  { configuration_version := 0,
    con_config := { wifi_settings_count := 1, ota_url_len := 3, version_url_len := 3,
                    ota_url := some [111, 116, 97], version_url := some [118, 101, 114],
                    wifi_settings := [{ ssid_len := 32, password_len := 64,
                                        ssid := some (List.replicate 32 97),
                                        password := some (List.replicate 64 98) }] },
    sys_config := { log_level := 3 },
    user_config := { unit_name := some [117, 110, 105, 116], unit_name_len := 4 } }

/-- A configuration with zero credentials. -/
def example_config_no_credentials : unit_configuration :=
  { configuration_version := 0,
    con_config := { wifi_settings_count := 0, ota_url_len := 1, version_url_len := 1,
                    ota_url := some [111], version_url := some [118],
                    wifi_settings := [] },
    sys_config := { log_level := 2 },
    user_config := { unit_name := none, unit_name_len := 0 } }

/-- A small configuration with every field populated. -/
def example_config_small : unit_configuration :=
  { configuration_version := 0,
    con_config := { wifi_settings_count := 1, ota_url_len := 1, version_url_len := 1,
                    ota_url := some [65], version_url := some [66],
                    wifi_settings := [{ ssid_len := 1, password_len := 1,
                                        ssid := some [67], password := some [68] }] },
    sys_config := { log_level := 3 },
    user_config := { unit_name := some [69], unit_name_len := 1 } }

/-- Concrete menuconfig defaults. -/
def example_kconfig : kconfig :=
  { ssid := [115, 115, 105, 100], password := [112, 119], ota_url := [111],
    version_url := [118], log_level := 3, esp_name := [110] }

/-- The shared config right after `unit_config_init`, which `calloc`s the
struct: all counts and lengths zero, all pointers NULL. -/
def zero_unit_configuration : unit_configuration :=
  { configuration_version := 0,
    con_config := { wifi_settings_count := 0, ota_url_len := 0, version_url_len := 0,
                    ota_url := none, version_url := none, wifi_settings := [] },
    sys_config := { log_level := 0 },
    user_config := { unit_name := none, unit_name_len := 0 } }

/-! ## Helper lemmas -/

/-! ### Codec lemmas: exact decoding of encoded prefixes -/

theorem le_bytes_length (w v : Nat) : (le_bytes w v).length = w := by
  induction w generalizing v with
  | zero => rfl
  | succ w ih => simp [le_bytes, ih]

theorem le_value_le_bytes (w v : Nat) (h : v < 256 ^ w) :
    le_value (le_bytes w v) = v := by
  induction w generalizing v with
  | zero => simp [le_bytes, le_value]; omega
  | succ w ih =>
    have hdiv : v / 256 < 256 ^ w := by
      rw [Nat.div_lt_iff_lt_mul (by norm_num)]
      calc v < 256 ^ (w + 1) := h
        _ = 256 ^ w * 256 := by ring
    simp only [le_bytes, le_value, ih _ hdiv]
    omega

theorem deserialize_block_exact (xs rest : List Nat) (n : Nat) (h : xs.length = n) :
    deserialize_block (xs ++ rest) n = .ok (xs, rest) := by
  subst h
  unfold deserialize_block
  rw [if_pos (by simp)]
  rw [List.take_left, List.drop_left]

theorem deserialize_u8_exact (v : Nat) (rest : List Nat) (h : v < 256) :
    deserialize_u8 (le_bytes 1 v ++ rest) = .ok (v, rest) := by
  unfold deserialize_u8
  rw [deserialize_block_exact _ _ _ (le_bytes_length 1 v)]
  dsimp only
  rw [le_value_le_bytes 1 v (by simpa using h)]

theorem deserialize_u32_exact (v : Nat) (rest : List Nat) (h : v < 4294967296) :
    deserialize_u32 (le_bytes 4 v ++ rest) = .ok (v, rest) := by
  unfold deserialize_u32
  rw [deserialize_block_exact _ _ _ (le_bytes_length 4 v)]
  dsimp only
  rw [le_value_le_bytes 4 v (by norm_num; omega)]

theorem deserialize_opt_bytes_exact (len : Nat) (p : Option (List Nat))
    (rest : List Nat) (h : strOk len p) :
    deserialize_opt_bytes len (optBytes len p ++ rest) = .ok (p, rest) := by
  match p with
  | none =>
    have hlen : len = 0 := h
    subst hlen
    simp [optBytes, deserialize_opt_bytes]
  | some bytes =>
    obtain ⟨hpos, hlen⟩ := h
    unfold optBytes deserialize_opt_bytes
    dsimp only
    rw [if_pos hpos, if_pos hpos]
    rw [← hlen, List.take_length]
    rw [deserialize_block_exact _ _ _ rfl]

theorem deserialize_wifi_settings_exact (s : wifi_settings) (rest : List Nat)
    (h : s.valid) :
    deserialize_wifi_settings (serialize_wifi_settings s ++ rest) = .ok (s, rest) := by
  obtain ⟨h1, h2, h3, h4⟩ := h
  simp only [serialize_wifi_settings, List.append_assoc]
  unfold deserialize_wifi_settings
  rw [deserialize_u8_exact _ _ (by omega)]
  dsimp only
  rw [deserialize_u8_exact _ _ (by omega)]
  dsimp only
  rw [deserialize_opt_bytes_exact _ _ _ h3]
  dsimp only
  rw [deserialize_opt_bytes_exact _ _ _ h4]

theorem deserialize_wifi_settings_list_exact (l : List wifi_settings)
    (rest : List Nat) (h : ∀ s ∈ l, s.valid) :
    deserialize_wifi_settings_list l.length
      ((l.map serialize_wifi_settings).flatten ++ rest) = .ok (l, rest) := by
  induction l with
  | nil => simp [deserialize_wifi_settings_list]
  | cons s l ih =>
    simp only [List.map_cons, List.flatten_cons, List.length_cons, List.append_assoc]
    unfold deserialize_wifi_settings_list
    rw [deserialize_wifi_settings_exact _ _ (h s (by simp))]
    dsimp only
    rw [ih (fun t ht => h t (by simp [ht]))]

theorem deserialize_connectivity_configuration_exact
    (c : connectivity_configuration) (rest : List Nat) (h : c.valid) :
    deserialize_connectivity_configuration
      (serialize_connectivity_configuration c ++ rest) = .ok (c, rest) := by
  obtain ⟨hcnt, hcnt255, ho255, hv255, ho, hv, hall⟩ := h
  simp only [serialize_connectivity_configuration, List.append_assoc]
  unfold deserialize_connectivity_configuration
  rw [deserialize_u8_exact _ _ (by omega)]
  dsimp only
  rw [deserialize_u8_exact _ _ (by omega)]
  dsimp only
  rw [deserialize_u8_exact _ _ (by omega)]
  dsimp only
  rw [deserialize_opt_bytes_exact _ _ _ ho]
  dsimp only
  rw [deserialize_opt_bytes_exact _ _ _ hv]
  dsimp only
  rw [hcnt, List.take_length]
  rw [deserialize_wifi_settings_list_exact _ _ hall]
  dsimp only
  rw [← hcnt]

theorem deserialize_system_settings_configuration_exact
    (c : system_settings_configuration) (rest : List Nat) (h : c.valid) :
    deserialize_system_settings_configuration
      (serialize_system_settings_configuration c ++ rest) = .ok (c, rest) := by
  unfold serialize_system_settings_configuration
    deserialize_system_settings_configuration
  rw [deserialize_u32_exact _ _ h]

theorem deserialize_user_configuration_exact (c : user_configuration)
    (rest : List Nat) (h : c.valid) :
    deserialize_user_configuration (serialize_user_configuration c ++ rest) =
      .ok (c, rest) := by
  obtain ⟨h255, hstr⟩ := h
  simp only [serialize_user_configuration, List.append_assoc]
  unfold deserialize_user_configuration
  rw [deserialize_u8_exact _ _ (by omega)]
  dsimp only
  rw [deserialize_opt_bytes_exact _ _ _ hstr]

theorem deserialize_unit_configuration_exact (c : unit_configuration)
    (rest : List Nat) (h : c.valid) :
    deserialize_unit_configuration (serialize_unit_configuration c ++ rest) =
      .ok (c, rest) := by
  obtain ⟨hver, hcon, hsys, husr⟩ := h
  simp only [serialize_unit_configuration, List.append_assoc]
  rw [hver]
  unfold deserialize_unit_configuration
  rw [deserialize_u8_exact _ _ (by norm_num [CONFIGURATION_VERSION])]
  dsimp only
  rw [if_neg (by simp)]
  rw [deserialize_connectivity_configuration_exact _ _ hcon]
  dsimp only
  rw [deserialize_system_settings_configuration_exact _ _ hsys]
  dsimp only
  rw [deserialize_user_configuration_exact _ _ husr]
  dsimp only
  rw [← hver]

/-- Round-trip on the full blob with nothing following it. -/
theorem decode_encode_unit_configuration (c : unit_configuration) (h : c.valid) :
    deserialize_unit_configuration (serialize_unit_configuration c) = .ok (c, []) := by
  have h2 := deserialize_unit_configuration_exact c [] h
  simpa using h2

/-! ### Truncation and version-guard lemmas -/

theorem serialize_user_configuration_ne_nil (u : user_configuration) :
    serialize_user_configuration u ≠ [] := by
  simp [serialize_user_configuration, le_bytes]

/-- Removing the final byte of an encoded user configuration makes the
user-configuration decoder hit the unchecked read past the buffer end. -/
theorem deserialize_user_configuration_truncated (u : user_configuration)
    (h : u.valid) :
    deserialize_user_configuration ((serialize_user_configuration u).dropLast) =
      .error .outOfBounds := by
  obtain ⟨name, len⟩ := u
  obtain ⟨h255, hstr⟩ := h
  dsimp only at h255 hstr
  match name with
  | none =>
    have hlen : len = 0 := hstr
    subst hlen
    simp [serialize_user_configuration, optBytes, le_bytes,
      deserialize_user_configuration, deserialize_u8, deserialize_block]
  | some bytes =>
    obtain ⟨hpos, hlen⟩ := hstr
    simp only [serialize_user_configuration, optBytes, le_bytes] at h255 ⊢
    rw [if_pos hpos]
    rw [show List.take len bytes = bytes from by rw [← hlen, List.take_length]]
    have hmod : len % 256 = len := Nat.mod_eq_of_lt (by omega)
    rw [hmod]
    have hne : bytes ≠ [] := by
      intro hcon
      subst hcon
      simp at hlen
      omega
    rw [show (([len] : List Nat) ++ bytes) = len :: bytes from rfl]
    rw [List.dropLast_cons_of_ne_nil hne]
    have hu8 : deserialize_u8 (len :: bytes.dropLast) = .ok (len, bytes.dropLast) := by
      unfold deserialize_u8 deserialize_block
      simp [le_value]
    unfold deserialize_user_configuration
    rw [hu8]
    dsimp only
    unfold deserialize_opt_bytes
    rw [if_pos hpos]
    unfold deserialize_block
    rw [if_neg (by simp [List.length_dropLast]; omega)]

/-- Truncating any valid encoded blob by one byte drives the decoder past
the end of the buffer (there is no size check in the source that could
report this; the model flags the out-of-bounds `memcpy`). -/
theorem decode_truncated_out_of_bounds (c : unit_configuration) (h : c.valid) :
    deserialize_unit_configuration ((serialize_unit_configuration c).dropLast) =
      .error .outOfBounds := by
  obtain ⟨hver, hcon, hsys, husr⟩ := h
  simp only [serialize_unit_configuration]
  rw [List.dropLast_append_of_ne_nil _ (serialize_user_configuration_ne_nil c.user_config)]
  simp only [List.append_assoc]
  rw [hver]
  unfold deserialize_unit_configuration
  rw [deserialize_u8_exact _ _ (by norm_num [CONFIGURATION_VERSION])]
  dsimp only
  rw [if_neg (by simp)]
  rw [deserialize_connectivity_configuration_exact _ _ hcon]
  dsimp only
  rw [deserialize_system_settings_configuration_exact _ _ hsys]
  dsimp only
  rw [deserialize_user_configuration_truncated _ husr]

/-- Any buffer whose leading version byte differs from
`CONFIGURATION_VERSION` is rejected before any further field is decoded. -/
theorem decode_version_mismatch (v : Nat) (rest : List Nat)
    (h : v ≠ CONFIGURATION_VERSION) :
    deserialize_unit_configuration (v :: rest) = .error .versionMismatch := by
  have hu8 : deserialize_u8 (v :: rest) = .ok (v, rest) := by
    unfold deserialize_u8 deserialize_block
    simp [le_value]
  unfold deserialize_unit_configuration
  rw [hu8]
  dsimp only
  rw [if_pos h]

theorem optBytes_eq_getD (len : Nat) (p : Option (List Nat)) (h : strOk len p) :
    optBytes len p = p.getD [] := by
  match p with
  | none => rfl
  | some bytes =>
    obtain ⟨hpos, hlen⟩ := h
    simp only [optBytes, Option.getD]
    rw [if_pos hpos, ← hlen, List.take_length]

theorem serialize_wifi_settings_eq (s : wifi_settings) (h : s.valid) :
    serialize_wifi_settings s =
      [s.ssid_len % 256, s.password_len % 256] ++ s.ssid.getD []
        ++ s.password.getD [] := by
  obtain ⟨h1, h2, h3, h4⟩ := h
  simp [serialize_wifi_settings, le_bytes, optBytes_eq_getD _ _ h3,
    optBytes_eq_getD _ _ h4]

/-- The encoder emits exactly `actual_layout`. -/
theorem serialize_eq_actual_layout (c : unit_configuration) (h : c.valid) :
    serialize_unit_configuration c = actual_layout c := by
  obtain ⟨hver, ⟨hcnt, hcnt255, ho255, hv255, ho, hv, hall⟩, hsys, husr⟩ := h
  obtain ⟨h255, hname⟩ := husr
  simp only [serialize_unit_configuration, serialize_connectivity_configuration,
    serialize_system_settings_configuration, serialize_user_configuration,
    actual_layout, le_bytes, optBytes_eq_getD _ _ ho, optBytes_eq_getD _ _ hv,
    optBytes_eq_getD _ _ hname, hcnt, List.take_length]
  rw [List.map_congr_left (fun s hs => serialize_wifi_settings_eq s (hall s hs))]
  simp [le_bytes]

theorem optBytes_length (len : Nat) (p : Option (List Nat)) (h : strOk len p) :
    (optBytes len p).length = len := by
  match p with
  | none => simpa [optBytes] using h.symm
  | some bytes =>
    obtain ⟨hpos, hlen⟩ := h
    simp [optBytes, if_pos hpos, hlen]

theorem serialize_wifi_settings_length (s : wifi_settings) (h : s.valid) :
    (serialize_wifi_settings s).length = (1 + s.ssid_len) + (1 + s.password_len) := by
  obtain ⟨h1, h2, h3, h4⟩ := h
  simp [serialize_wifi_settings, le_bytes, optBytes_length _ _ h3,
    optBytes_length _ _ h4]
  omega

/-- The encoder writes exactly the number of bytes that
`calculate_unit_configuration_size` computes (the size check in
`store_unit_default_config_to_nvs` succeeds on consistent configs). -/
theorem serialize_length_eq_calculate (c : unit_configuration) (h : c.valid) :
    (serialize_unit_configuration c).length = calculate_unit_configuration_size c := by
  obtain ⟨hver, ⟨hcnt, hcnt255, ho255, hv255, ho, hv, hall⟩, hsys, husr⟩ := h
  obtain ⟨h255, hname⟩ := husr
  simp only [serialize_unit_configuration, serialize_connectivity_configuration,
    serialize_system_settings_configuration, serialize_user_configuration,
    calculate_unit_configuration_size, List.length_append, le_bytes_length,
    optBytes_length _ _ ho, optBytes_length _ _ hv, optBytes_length _ _ hname,
    List.length_flatten, List.map_map]
  rw [List.map_congr_left
    (fun s hs => by
      show (serialize_wifi_settings s).length = (1 + s.ssid_len) + (1 + s.password_len)
      exact serialize_wifi_settings_length s
        (hall s (List.mem_of_mem_take (hcnt ▸ hs))))]
  omega

/-! ### Manager helper lemmas -/

theorem apply_default_config_valid (k : kconfig) (cfg : unit_configuration)
    (hk : k.valid) (hv : cfg.configuration_version = CONFIGURATION_VERSION) :
    (apply_default_config k cfg).valid := by
  obtain ⟨h1, h2, h3, h4, h5, h6, h7, h8, h9, h10, h11⟩ := hk
  refine ⟨hv, ⟨rfl, by simp [apply_default_config], h6, h8, ⟨h5, rfl⟩, ⟨h7, rfl⟩, ?_⟩,
    h9, by simpa [apply_default_config] using h11, ⟨h10, rfl⟩⟩
  intro s hs
  simp only [apply_default_config, List.mem_singleton] at hs
  subst hs
  exact ⟨h2, h4, ⟨h1, rfl⟩, ⟨h3, rfl⟩⟩

theorem store_unit_default_config_to_nvs_ok (k : kconfig) (env : nvs_env)
    (hk : k.valid)
    (hv : env.shared_config.configuration_version = CONFIGURATION_VERSION) :
    store_unit_default_config_to_nvs k env =
      ({ stored_blob :=
           some (serialize_unit_configuration (apply_default_config k env.shared_config)),
         shared_config := apply_default_config k env.shared_config },
        [.nvs_open,
         .nvs_set_blob (serialize_unit_configuration (apply_default_config k env.shared_config)),
         .nvs_commit, .nvs_close]) := by
  unfold store_unit_default_config_to_nvs
  rw [if_pos (serialize_length_eq_calculate _ (apply_default_config_valid k _ hk hv))]

theorem read_nvs_into_config_ok (env : nvs_env) (c : unit_configuration)
    (h : c.valid) (hb : env.stored_blob = some (serialize_unit_configuration c)) :
    read_nvs_into_config env =
      ({ env with shared_config := c }, .ok,
        [.nvs_open, .nvs_get_blob, .nvs_get_blob, .log_level_set, .nvs_close]) := by
  unfold read_nvs_into_config
  rw [hb]
  dsimp only
  rw [decode_encode_unit_configuration c h]

theorem consecutive_disconnects_below (retries : Nat) :
    ∀ n c, c + n ≤ retries →
      consecutive_disconnects retries n c =
        (List.replicate n .schedule_reconnect, c + n) := by
  intro n
  induction n with
  | zero => intro c _; rfl
  | succ n ih =>
    intro c h
    unfold consecutive_disconnects handle_sta_disconnected
    rw [if_pos (by omega)]
    dsimp only
    rw [ih (c + 1) (by omega)]
    simp [List.replicate_succ]
    omega

theorem consecutive_disconnects_exhaust (retries : Nat) :
    ∀ n c, c ≤ retries → c + n = retries + 1 →
      consecutive_disconnects retries n c =
        (List.replicate (retries - c) .schedule_reconnect ++ [.request_ap], retries) := by
  intro n
  induction n with
  | zero => intro c h1 h2; omega
  | succ n ih =>
    intro c h1 h2
    unfold consecutive_disconnects handle_sta_disconnected
    by_cases hc : c < retries
    · rw [if_pos hc]
      dsimp only
      rw [ih (c + 1) (by omega) (by omega)]
      have hrep : retries - c = (retries - (c + 1)) + 1 := by omega
      rw [hrep, List.replicate_succ]
      simp
    · have hce : c = retries := by omega
      have hn : n = 0 := by omega
      subst hce hn
      rw [if_neg (by omega)]
      dsimp only
      unfold consecutive_disconnects
      simp

/-! ## Claim theorems -/

/-- Claim C1: the claim states that decoding validates every length field
against the remaining buffer and fails with `ConfigSizeInconsistent` on a
truncated blob, never reading past the end.  The source decoder has no
such validation and no such error: this theorem shows that for every
valid configuration, decoding its encoded blob truncated by one byte
drives the unchecked `memcpy` of `deserialize_block` past the end of the
buffer (`.error .outOfBounds` marks the attempted out-of-bounds read;
no `ConfigSizeInconsistent` outcome exists in the code). -/
theorem C1_truncated_decode_reads_out_of_bounds (c : unit_configuration)
    (h : c.valid) :
    deserialize_unit_configuration ((serialize_unit_configuration c).dropLast) =
      .error .outOfBounds :=
  decode_truncated_out_of_bounds c h

theorem C1_truncated_decode_reads_out_of_bounds_witness :
    example_config_small.valid
      ∧ deserialize_unit_configuration
          ((serialize_unit_configuration example_config_small).dropLast) =
        .error .outOfBounds :=
  ⟨by decide, C1_truncated_decode_reads_out_of_bounds example_config_small (by decide)⟩

/-- Claim C2: for every valid `unit_configuration` (0..255 credentials,
string fields within their bounds), decoding the encoded blob yields the
original configuration with nothing left over; and when the credential
list is empty, byte 1 of the blob (the `credential_count` byte) is 0 and
the blob consists solely of the header bytes, the two URLs, the log
level and the name — no credential records.  The first conjunct applied
to such a configuration also shows decoding yields the empty credential
list rather than an error. -/
theorem C2_roundtrip_and_zero_credential_boundary (c : unit_configuration)
    (h : c.valid) :
    deserialize_unit_configuration (serialize_unit_configuration c) = .ok (c, [])
      ∧ (c.con_config.wifi_settings = [] →
          (serialize_unit_configuration c)[1]? = some 0
            ∧ serialize_unit_configuration c =
                [0, 0, c.con_config.ota_url_len % 256, c.con_config.version_url_len % 256]
                  ++ c.con_config.ota_url.getD [] ++ c.con_config.version_url.getD []
                  ++ le_bytes 4 c.sys_config.log_level
                  ++ [c.user_config.unit_name_len % 256]
                  ++ c.user_config.unit_name.getD []) := by
  refine ⟨decode_encode_unit_configuration c h, fun hempty => ?_⟩
  have hcnt0 : c.con_config.wifi_settings_count = 0 := by
    rw [h.2.1.1, hempty]
    rfl
  have hver0 : c.configuration_version = 0 := h.1
  rw [serialize_eq_actual_layout c h]
  unfold actual_layout
  rw [hcnt0, hver0, hempty]
  constructor
  · rfl
  · simp

theorem C2_roundtrip_and_zero_credential_boundary_witness :
    deserialize_unit_configuration (serialize_unit_configuration example_config_boundary) =
        .ok (example_config_boundary, [])
      ∧ (serialize_unit_configuration example_config_no_credentials)[1]? = some 0
      ∧ deserialize_unit_configuration
          (serialize_unit_configuration example_config_no_credentials) =
          .ok (example_config_no_credentials, []) :=
  ⟨(C2_roundtrip_and_zero_credential_boundary example_config_boundary (by decide)).1,
   ((C2_roundtrip_and_zero_credential_boundary example_config_no_credentials
      (by decide)).2 rfl).1,
   (C2_roundtrip_and_zero_credential_boundary example_config_no_credentials (by decide)).1⟩

/-- Claim C3 counterexample: with `CONFIG_WIFI_RETRIES = 3`, after exactly
3 consecutive disconnect events from a zero counter, every event only
scheduled a reconnect — no `AP` request was made, contrary to the claim;
`AP` is requested on the 4th disconnect. -/
theorem C3_no_ap_after_exactly_retries_disconnects :
    disconnect_action.request_ap ∉ (consecutive_disconnects 3 3 0).1
      ∧ (consecutive_disconnects 3 3 0).2 = 3
      ∧ (consecutive_disconnects 3 4 0).1 =
          [.schedule_reconnect, .schedule_reconnect, .schedule_reconnect, .request_ap] := by
  decide

/-- Claim C3 (amended): starting from a zero counter with no intervening
successful connection, each of the first `CONFIG_WIFI_RETRIES` disconnect
events schedules exactly one delayed reconnect and increments the
counter; the `AP` state is requested on the `CONFIG_WIFI_RETRIES + 1`-th
consecutive disconnect and not before; and the counter is reset to zero
exactly by the address-obtained handler. -/
theorem C3_ap_requested_on_retries_plus_one (retries : Nat) :
    (∀ n, n ≤ retries →
        consecutive_disconnects retries n 0 =
          (List.replicate n .schedule_reconnect, n))
      ∧ consecutive_disconnects retries (retries + 1) 0 =
          (List.replicate retries .schedule_reconnect ++ [.request_ap], retries)
      ∧ (∀ c, (handle_sta_ip_obtained c).1 = 0)
      ∧ (∀ c, c < retries →
          handle_sta_disconnected retries c = (.schedule_reconnect, c + 1))
      ∧ (∀ c, retries ≤ c →
          handle_sta_disconnected retries c = (.request_ap, c)) := by
  refine ⟨?_, ?_, fun c => rfl, fun c hc => by simp [handle_sta_disconnected, hc], ?_⟩
  · intro n hn
    have h2 := consecutive_disconnects_below retries n 0 (by omega)
    simpa using h2
  · have h2 := consecutive_disconnects_exhaust retries (retries + 1) 0 (by omega) (by omega)
    simpa using h2
  · intro c hc
    unfold handle_sta_disconnected
    rw [if_neg (by omega)]

theorem C3_ap_requested_on_retries_plus_one_witness :
    consecutive_disconnects 2 2 0 = (List.replicate 2 .schedule_reconnect, 2)
      ∧ consecutive_disconnects 2 3 0 =
          (List.replicate 2 .schedule_reconnect ++ [.request_ap], 2) :=
  ⟨(C3_ap_requested_on_retries_plus_one 2).1 2 (by decide),
   (C3_ap_requested_on_retries_plus_one 2).2.1⟩

/-- Claim C4 counterexample: a store whose key is present but whose blob
has version byte 1 ≠ `CONFIGURATION_VERSION`.  `InitRequest` from
`Uninitialized` does not synthesize or write a default configuration (no
`nvs_set_blob` occurs and the stored blob stays `[1]`), contrary to the
claim that a version mismatch also triggers the default write; the
manager still reaches `Ready`. -/
theorem C4_version_mismatch_does_not_write_defaults :
    (nvs_transition_to_state ⟨.state_none, false⟩
        ⟨some [1], zero_unit_configuration⟩ example_kconfig .ready_request).env.stored_blob
        = some [1]
      ∧ ((nvs_transition_to_state ⟨.state_none, false⟩
            ⟨some [1], zero_unit_configuration⟩ example_kconfig .ready_request).effects.all
          (fun e => match e with | .nvs_set_blob _ => false | _ => true)) = true
      ∧ (nvs_transition_to_state ⟨.state_none, false⟩
            ⟨some [1], zero_unit_configuration⟩ example_kconfig
            .ready_request).manager.current_state = .ready := by
  decide

/-- Claim C4 (amended): on `InitRequest` from `Uninitialized` the Config
Manager opens the store and synthesizes and writes the compiled-in
default `unit_configuration` exactly when the expected key is absent (a
present key with a mismatched version byte does not trigger the default
write), then performs an implicit read and transitions to `Ready`,
publishing the `Ready` signal; on a fresh device with an empty store the
defaults are written and a subsequent `ReadRequest` returns exactly those
compiled-in defaults. -/
theorem C4_init_fresh_store_writes_and_returns_defaults
    (k : kconfig) (env : nvs_env) (b : Bool) (hk : k.valid)
    (habsent : env.stored_blob = none)
    (hv : env.shared_config.configuration_version = CONFIGURATION_VERSION) :
    nvs_transition_to_state ⟨.state_none, b⟩ env k .ready_request =
      ⟨⟨.ready, true⟩,
       { stored_blob := some (serialize_unit_configuration
           (apply_default_config k env.shared_config)),
         shared_config := apply_default_config k env.shared_config },
       [.flash_init, .nvs_open, .nvs_get_blob, .nvs_close,
        .nvs_open,
        .nvs_set_blob (serialize_unit_configuration
          (apply_default_config k env.shared_config)),
        .nvs_commit, .nvs_close,
        .nvs_open, .nvs_get_blob, .nvs_get_blob, .log_level_set, .nvs_close,
        .publish nvs_state.ready.bits], .ok⟩
      ∧ nvs_transition_to_state ⟨.ready, true⟩
          { stored_blob := some (serialize_unit_configuration
              (apply_default_config k env.shared_config)),
            shared_config := apply_default_config k env.shared_config } k .read_request =
        ⟨⟨.ready, true⟩,
         { stored_blob := some (serialize_unit_configuration
             (apply_default_config k env.shared_config)),
           shared_config := apply_default_config k env.shared_config },
         [.publish nvs_state.busy.bits,
          .nvs_open, .nvs_get_blob, .nvs_get_blob, .log_level_set, .nvs_close,
          .publish nvs_state.ready.bits], .ok⟩ := by
  have hdv : (apply_default_config k env.shared_config).valid :=
    apply_default_config_valid k env.shared_config hk hv
  have hstore := store_unit_default_config_to_nvs_ok k env hk hv
  have hread := read_nvs_into_config_ok
    { stored_blob := some (serialize_unit_configuration
        (apply_default_config k env.shared_config)),
      shared_config := apply_default_config k env.shared_config }
    (apply_default_config k env.shared_config) hdv rfl
  constructor
  · unfold nvs_transition_to_state
    rw [if_neg (by simp), if_neg (by simp), if_pos ⟨rfl, rfl⟩]
    rw [habsent]
    simp [hstore, hread]
  · unfold nvs_transition_to_state
    rw [if_neg (by simp), if_neg (by simp), if_neg (by simp), if_pos ⟨rfl, rfl⟩]
    simp [hread]

theorem C4_init_fresh_store_writes_and_returns_defaults_witness :
    (nvs_transition_to_state ⟨.state_none, false⟩
        ⟨none, zero_unit_configuration⟩ example_kconfig .ready_request).env =
      { stored_blob := some (serialize_unit_configuration
          (apply_default_config example_kconfig zero_unit_configuration)),
        shared_config := apply_default_config example_kconfig zero_unit_configuration }
      ∧ (nvs_transition_to_state ⟨.ready, true⟩
          { stored_blob := some (serialize_unit_configuration
              (apply_default_config example_kconfig zero_unit_configuration)),
            shared_config := apply_default_config example_kconfig zero_unit_configuration }
          example_kconfig .read_request).env.shared_config =
        apply_default_config example_kconfig zero_unit_configuration := by
  have h := C4_init_fresh_store_writes_and_returns_defaults example_kconfig
    ⟨none, zero_unit_configuration⟩ false (by decide) rfl rfl
  exact ⟨by rw [h.1], by rw [h.2]⟩

/-- Claim C5 counterexample: when only the `AccessPoint` state signal
(`BIT3`) has been published, the Boot Sequencer wait of step 4 — which
waits on the mask `WIFI_MANAGER_STATE_STA_IP_RECEIVED` (`BIT2`) only —
has not completed, contrary to the claim that either signal completes
it. -/
theorem C5_ap_alone_does_not_release_boot :
    boot_step4_wait_done (wifi_signals.bits
      { none_s := false, sta_s := false, ip_s := false,
        ap_s := true, ap_sta_s := false }) = false := by
  decide

/-- Claim C5 (amended): the Boot Sequencer step-4 wait completes exactly
when the `StationConnected` (IP-received) signal has been published; the
`AccessPoint` signal neither completes nor blocks it, so a boot in which
only `AccessPoint` is reached stays blocked. -/
theorem C5_boot_wait_completes_exactly_on_ip (s : wifi_signals) :
    boot_step4_wait_done s.bits = s.ip_s := by
  obtain ⟨a, b, c, d, e⟩ := s
  cases a <;> cases b <;> cases c <;> cases d <;> cases e <;> rfl

/-- Claim C6: decoding any blob whose leading version byte differs from
`CONFIGURATION_VERSION` yields the version-mismatch outcome (the C
function returns NULL before decoding any further field), and the
Config Manager read path leaves every connectivity, system-settings and
user-config field of the shared configuration unmodified. -/
theorem C6_version_mismatch_rejects_whole_blob (v : Nat) (rest : List Nat)
    (cfg : unit_configuration) (h : v ≠ CONFIGURATION_VERSION) :
    deserialize_unit_configuration (v :: rest) = .error .versionMismatch
      ∧ (read_nvs_into_config ⟨some (v :: rest), cfg⟩).1.shared_config.con_config
          = cfg.con_config
      ∧ (read_nvs_into_config ⟨some (v :: rest), cfg⟩).1.shared_config.sys_config
          = cfg.sys_config
      ∧ (read_nvs_into_config ⟨some (v :: rest), cfg⟩).1.shared_config.user_config
          = cfg.user_config := by
  have hd := decode_version_mismatch v rest h
  exact ⟨hd, by simp [read_nvs_into_config, hd], by simp [read_nvs_into_config, hd],
    by simp [read_nvs_into_config, hd]⟩

theorem C6_version_mismatch_rejects_whole_blob_witness :
    deserialize_unit_configuration (1 :: [7, 7, 7]) = .error .versionMismatch
      ∧ (read_nvs_into_config ⟨some (1 :: [7, 7, 7]),
          example_config_small⟩).1.shared_config.con_config =
        example_config_small.con_config :=
  ⟨(C6_version_mismatch_rejects_whole_blob 1 [7, 7, 7] example_config_small
      (by decide)).1,
   (C6_version_mismatch_rejects_whole_blob 1 [7, 7, 7] example_config_small
      (by decide)).2.1⟩

/-- Claim C7: the selection part behaves as claimed on the spec example —
with scan results A at -80 dBm and B at -40 dBm and credentials listed as
[B, A] or [A, B], the credential for B (highest RSSI) is selected — but
the no-match part does not: when no scanned network matches any
credential, `find_strongest_ssid` returns `ESP_ERR_NOT_FOUND` and the
`WIFI_EVENT_SCAN_DONE` handler wraps `connect_to_sta` in
`ESP_ERROR_CHECK` (marked `#TODO error handle`), which aborts the program
instead of requesting `AccessPoint`. -/
theorem C7_selects_strongest_but_no_match_aborts :
    find_strongest_ssid
        [{ ssid := [65], rssi := -80 }, { ssid := [66], rssi := -40 }]
        [{ ssid_len := 1, password_len := 2, ssid := some [66], password := some [112, 50] },
         { ssid_len := 1, password_len := 2, ssid := some [65], password := some [112, 49] }]
        = some ([66], [112, 50])
      ∧ find_strongest_ssid
          [{ ssid := [65], rssi := -80 }, { ssid := [66], rssi := -40 }]
          [{ ssid_len := 1, password_len := 2, ssid := some [65], password := some [112, 49] },
           { ssid_len := 1, password_len := 2, ssid := some [66], password := some [112, 50] }]
          = some ([66], [112, 50])
      ∧ handle_scan_done [{ ssid := [67], rssi := -40 }]
          [{ ssid_len := 1, password_len := 2, ssid := some [66], password := some [112, 50] },
           { ssid_len := 1, password_len := 2, ssid := some [65], password := some [112, 49] }]
          = .abort_program := by
  decide

/-- Claim C8 counterexample: the encoder does not emit the layout the
claim describes.  On a concrete configuration the emitted bytes differ
from the spec layout (`ota_url_len` immediately followed by the URL
bytes, per-record `ssid_len, ssid, password_len, password`, one-byte
`log_level`): the code writes all length bytes of a group first, then
the bodies, and writes `log_level` as four bytes. -/
theorem C8_spec_layout_differs_from_encoder :
    serialize_unit_configuration example_config_small ≠
      spec_layout_serialize example_config_small := by
  decide

/-- Claim C8 (amended): for every valid configuration the encoder emits,
and the decoder consumes exactly, the byte layout: `version:u8`,
`credential_count:u8`, `ota_url_len:u8`, `version_url_len:u8`, then the
OTA URL bytes, then the version URL bytes, then `credential_count`
records each as `ssid_len:u8, password_len:u8, ssid bytes, password
bytes`, then `log_level` as four little-endian bytes, then `name_len:u8`
followed by the name bytes — with no padding. -/
theorem C8_encoder_and_decoder_use_actual_layout (c : unit_configuration)
    (h : c.valid) :
    serialize_unit_configuration c = actual_layout c
      ∧ deserialize_unit_configuration (actual_layout c) = .ok (c, []) := by
  have h1 := serialize_eq_actual_layout c h
  exact ⟨h1, h1 ▸ decode_encode_unit_configuration c h⟩

theorem C8_encoder_and_decoder_use_actual_layout_witness :
    serialize_unit_configuration example_config_small = actual_layout example_config_small
      ∧ deserialize_unit_configuration (actual_layout example_config_small) =
        .ok (example_config_small, []) :=
  C8_encoder_and_decoder_use_actual_layout example_config_small (by decide)

/-- Claim C9: requesting a manager state equal to the current state is a
no-op.  The Connectivity Manager `transition_to_state` returns `ESP_OK`
immediately with no radio/netif operation and no state-signal
publication; the Config Manager rejects `NONE`-while-`NONE` and
`READY`-while-`READY` requests in its final `else` branch with no
storage I/O and no publication. -/
theorem C9_requesting_current_state_is_noop (m : wifi_manager_model)
    (env : nvs_env) (k : kconfig) (b : Bool) :
    wifi_transition_to_state m m.current_state = (m, [], .ok)
      ∧ nvs_transition_to_state ⟨.state_none, b⟩ env k .none_request =
          ⟨⟨.state_none, b⟩, env, [], .fail⟩
      ∧ nvs_transition_to_state ⟨.ready, b⟩ env k .ready_request =
          ⟨⟨.ready, b⟩, env, [], .fail⟩ := by
  refine ⟨?_, ?_, ?_⟩
  · unfold wifi_transition_to_state
    rw [if_pos rfl]
  · unfold nvs_transition_to_state
    simp
  · unfold nvs_transition_to_state
    simp

/-- Claim C10: when several request bits are pending at once, one worker
wake-up services exactly one request — chosen by the fixed priority
`NONE, STA, AP, AP_STA` (Connectivity) and `NONE, READY, READ, WRITE`
(Config) — and clears every pending bit, so the lower-priority
simultaneous requests are discarded, not queued. -/
theorem C10_fixed_priority_and_discard (p : wifi_requests) (q : nvs_requests) :
    ((wifi_fsm_iteration p).2.bits = 0
      ∧ (p.none_r = true → (wifi_fsm_iteration p).1 = .state_none)
      ∧ (p.none_r = false → p.sta_r = true → (wifi_fsm_iteration p).1 = .sta)
      ∧ (p.none_r = false → p.sta_r = false → p.ap_r = true →
          (wifi_fsm_iteration p).1 = .ap)
      ∧ (p.none_r = false → p.sta_r = false → p.ap_r = false → p.ap_sta_r = true →
          (wifi_fsm_iteration p).1 = .ap_sta))
      ∧ ((nvs_fsm_iteration q).2.bits = 0
        ∧ (q.none_r = true → (nvs_fsm_iteration q).1 = some .none_request)
        ∧ (q.none_r = false → q.ready_r = true →
            (nvs_fsm_iteration q).1 = some .ready_request)
        ∧ (q.none_r = false → q.ready_r = false → q.read_r = true →
            (nvs_fsm_iteration q).1 = some .read_request)
        ∧ (q.none_r = false → q.ready_r = false → q.read_r = false → q.write_r = true →
            (nvs_fsm_iteration q).1 = some .write_request)) := by
  constructor
  · obtain ⟨a, b, c, d⟩ := p
    cases a <;> cases b <;> cases c <;> cases d <;> decide
  · obtain ⟨e, f, g, i⟩ := q
    cases e <;> cases f <;> cases g <;> cases i <;> decide

theorem C10_fixed_priority_and_discard_witness :
    (wifi_fsm_iteration ⟨false, true, true, false⟩).1 = .sta
      ∧ (wifi_fsm_iteration ⟨false, true, true, false⟩).2.bits = 0
      ∧ (nvs_fsm_iteration ⟨false, true, true, true⟩).1 = some .ready_request :=
  ⟨(C10_fixed_priority_and_discard ⟨false, true, true, false⟩
      ⟨false, true, true, true⟩).1.2.2.1 rfl rfl,
   (C10_fixed_priority_and_discard ⟨false, true, true, false⟩
      ⟨false, true, true, true⟩).1.1,
   (C10_fixed_priority_and_discard ⟨false, true, true, false⟩
      ⟨false, true, true, true⟩).2.2.2.1 rfl rfl⟩

end BoilerPlate

